import Mathlib

/-!
Verification of `approxeng.util` (interpolation / quantisation factories and
the `IntervalCheck` rate-limiting gate) against its specification.

Reals are modelled as `ℚ` (the Python code uses only field arithmetic,
comparison, `min`/`max` and `floor`, all exact over the rationals).
Construction-time failures (Python `ValueError`) are modelled with
`Except UtilError`; the two error kinds of the spec are distinguished by
the constructors of `UtilError`.  The stateful `IntervalCheck` is modelled
by explicit state passing, with the current clock reading supplied as an
argument and a blocking sleep modelled by returning the slept duration.
-/

/-- Construction-time errors.  `invalidRange` corresponds to the
`ValueError` raised by `interpolator` when `source_low == source_high`;
`invalidParameter` corresponds to the `ValueError`s raised by
`quantise_to` for a bad pad or `max_level`. -/
inductive UtilError where
  | invalidRange : ℚ → UtilError
  | invalidParameter : String → UtilError
deriving DecidableEq, Repr

/-- Embeds `inner_interpolator` from `interpolator`:
`i = (value - source_low) * source_range_inverse;
 return i * dest_high + (1.0 - i) * dest_low`
with `source_range_inverse = 1 / (source_high - source_low)`. -/
def inner_interpolator (source_low source_high dest_low dest_high : ℚ)
    (value : ℚ) : ℚ :=
  let i := (value - source_low) * (1 / (source_high - source_low))
  i * dest_high + (1 - i) * dest_low

/-- Embeds `inner_locked_interpolator` from `interpolator`:
`i = max(0.0, min(1.0, (value - source_low) * source_range_inverse));
 return i * dest_high + (1.0 - i) * dest_low`. -/
def inner_locked_interpolator (source_low source_high dest_low dest_high : ℚ)
    (value : ℚ) : ℚ :=
  let i := max 0 (min 1 ((value - source_low) * (1 / (source_high - source_low))))
  i * dest_high + (1 - i) * dest_low

/-- The body of `interpolator` after the `source_low > source_high`
normalisation step (the recursive call swaps the argument pairs and then
necessarily lands here, since after the swap `source_low < source_high`). -/
def interpolatorSorted (source_low source_high dest_low dest_high : ℚ)
    (lock_range : Bool) : Except UtilError (ℚ → ℚ) :=
  if source_low = source_high then
    .error (.invalidRange source_low)
  else
    .ok (if lock_range then
          inner_locked_interpolator source_low source_high dest_low dest_high
        else
          inner_interpolator source_low source_high dest_low dest_high)

/-- Embeds the factory `interpolator(source_low, source_high, dest_low,
dest_high, lock_range)`.  When `source_low > source_high` it recurses with
both the source pair and the destination pair swapped. -/
def interpolator (source_low source_high : ℚ) (dest_low : ℚ := 0)
    (dest_high : ℚ := 1) (lock_range : Bool := false) :
    Except UtilError (ℚ → ℚ) :=
  if source_low > source_high then
    interpolatorSorted source_high source_low dest_high dest_low lock_range
  else
    interpolatorSorted source_low source_high dest_low dest_high lock_range

/-- Embeds `tuple_interpolator`: builds one interpolator and maps it over
every element of the input sequence. -/
def tuple_interpolator (source_low source_high : ℚ) (dest_low : ℚ := 0)
    (dest_high : ℚ := 1) (lock_range : Bool := false) :
    Except UtilError (List ℚ → List ℚ) :=
  match interpolator source_low source_high dest_low dest_high lock_range with
  | .error e => .error e
  | .ok i => .ok fun t => t.map i

/-- Embeds `quantise_to(source_low, source_high, max_level, low_pad,
high_pad)`: validates the pads and `max_level`, builds an internal locked
interpolator onto `[low_pad, max_level + 1 - high_pad]`, and returns
`lambda value: min(max_level, math.floor(i(value)))`. -/
def quantise_to (source_low source_high : ℚ) (max_level : ℤ)
    (low_pad : ℚ := 0) (high_pad : ℚ := 0) : Except UtilError (ℚ → ℤ) :=
  if low_pad > 1 ∨ low_pad < 0 then
    .error (.invalidParameter "low_pad must be between 0.0 and 1.0")
  else if high_pad > 1 ∨ high_pad < 0 then
    .error (.invalidParameter "high_pad must be between 0.0 and 1.0")
  else if max_level < 1 then
    .error (.invalidParameter "number of quantisation levels must be greater than zero")
  else
    match interpolator source_low source_high low_pad
        ((max_level : ℚ) + 1 - high_pad) true with
    | .error e => .error e
    | .ok i => .ok fun value => min max_level ⌊i value⌋

/-- State of an `IntervalCheck` instance: the immutable `interval` and the
nullable `last_time` timestamp. -/
structure IntervalCheck where
  interval : ℚ
  last_time : Option ℚ
deriving DecidableEq, Repr

namespace IntervalCheck

/-- Embeds the constructor `IntervalCheck(interval)`: `last_time` starts
unset (`None`). -/
def init (interval : ℚ) : IntervalCheck :=
  { interval := interval, last_time := none }

/-- Embeds `should_run`; `now` is the value returned by `time()` at the
call.  Returns the boolean result together with the updated state. -/
def should_run (ic : IntervalCheck) (now : ℚ) : Bool × IntervalCheck :=
  match ic.last_time with
  | none => (true, { ic with last_time := some now })
  | some lt =>
    if now - lt > ic.interval then
      (true, { ic with last_time := some now })
    else
      (false, ic)

/-- Embeds `__bool__`, which simply returns `self.should_run()`. -/
def boolCoerce (ic : IntervalCheck) (now : ℚ) : Bool × IntervalCheck :=
  ic.should_run now

/-- Embeds `sleep`; `now` is the value returned by `time()` at the call.
The first component of the result is the duration passed to the blocking
`time.sleep` call (`0` when no sleep happens); the second is the updated
state. -/
def sleep (ic : IntervalCheck) (now : ℚ) : ℚ × IntervalCheck :=
  match ic.last_time with
  | none => (0, { ic with last_time := some now })
  | some lt =>
    if now - lt > ic.interval then
      (0, ic)
    else
      let remaining_interval := ic.interval - (now - lt)
      (remaining_interval, { ic with last_time := some (now + remaining_interval) })

/-- Embeds `__enter__`, which calls `self.sleep()`. -/
def enter (ic : IntervalCheck) (now : ℚ) : ℚ × IntervalCheck :=
  ic.sleep now

/-- Embeds `__exit__(exc_type, exc_val, exc_tb)`, which unconditionally
sets `self.last_time = time()`; `raised` records whether the enclosed
block raised an exception (the Python code ignores its exception
arguments). -/
def exitScope (ic : IntervalCheck) (now : ℚ) (_raised : Bool) : IntervalCheck :=
  { ic with last_time := some now }

end IntervalCheck

/-- Convex-combination bound: with a coefficient clamped to `[0, 1]`, the
value `i * dh + (1 - i) * dl` stays between `min dl dh` and `max dl dh`. -/
lemma convex_comb_bounds (i dl dh : ℚ) (h0 : 0 ≤ i) (h1 : i ≤ 1) :
    min dl dh ≤ i * dh + (1 - i) * dl ∧ i * dh + (1 - i) * dl ≤ max dl dh := by
  constructor
  · rcases le_total dl dh with h | h
    · rw [min_eq_left h]
      nlinarith
    · rw [min_eq_right h]
      nlinarith
  · rcases le_total dl dh with h | h
    · rw [max_eq_right h]
      nlinarith
    · rw [max_eq_left h]
      nlinarith

/-- The locked inner interpolator is bounded by its destination pair, for
any parameters whatsoever. -/
lemma inner_locked_interpolator_bounds (sl sh dl dh v : ℚ) :
    min dl dh ≤ inner_locked_interpolator sl sh dl dh v ∧
      inner_locked_interpolator sl sh dl dh v ≤ max dl dh := by
  unfold inner_locked_interpolator
  exact convex_comb_bounds _ dl dh (le_max_left _ _)
    (max_le (by norm_num) (min_le_left _ _))

/-- Any locked interpolator produced by the factory is bounded by the
(unordered) destination pair it was constructed with. -/
lemma interpolator_locked_bounds (sl sh dl dh : ℚ) (f : ℚ → ℚ)
    (h : interpolator sl sh dl dh true = .ok f) (v : ℚ) :
    min dl dh ≤ f v ∧ f v ≤ max dl dh := by
  unfold interpolator interpolatorSorted at h
  split at h
  · split at h
    · exact absurd h (by simp)
    · simp only [if_true, Except.ok.injEq] at h
      subst h
      simpa [min_comm, max_comm] using inner_locked_interpolator_bounds sh sl dh dl v
  · split at h
    · exact absurd h (by simp)
    · simp only [if_true, Except.ok.injEq] at h
      subst h
      exact inner_locked_interpolator_bounds sl sh dl dh v

/-- C1: for every interpolator constructed with `lock_range = true` and
every input value, including values far outside `[source_low,
source_high]`, the output lies within the closed interval
`[min(dest_low, dest_high), max(dest_low, dest_high)]`. -/
theorem locked_interpolator_output_in_dest_range (sl sh dl dh : ℚ)
    (f : ℚ → ℚ) (h : interpolator sl sh dl dh true = .ok f) (v : ℚ) :
    min dl dh ≤ f v ∧ f v ≤ max dl dh :=
  interpolator_locked_bounds sl sh dl dh f h v

/-- Witness for C1: the locked interpolator from `[0, 1]` onto `[0, 1]`
keeps the far-out-of-range input `1000` inside `[0, 1]`. -/
theorem locked_interpolator_output_in_dest_range_witness :
    min (0 : ℚ) 1 ≤ inner_locked_interpolator 0 1 0 1 1000 ∧
      inner_locked_interpolator 0 1 0 1 1000 ≤ max (0 : ℚ) 1 :=
  locked_interpolator_output_in_dest_range 0 1 0 1 _ rfl 1000

/-- The unlocked inner interpolator with mirrored destinations computes
the reflection `(low + high) - v`, whenever its source bounds differ. -/
lemma inner_interpolator_mirror (a b v : ℚ) (h : a ≠ b) :
    inner_interpolator a b b a v = (a + b) - v := by
  unfold inner_interpolator
  have hba : b - a ≠ 0 := sub_ne_zero.mpr (Ne.symm h)
  field_simp
  ring

/-- C6: for every `low ≠ high`, the unlocked interpolator with swapped
destination bounds, `interpolator low high high low`, maps `v` to
`(low + high) - v`; and when `source_low > source_high` the factory
normalises by swapping both the source pair and the destination pair. -/
theorem interpolator_inverse_law (low high v : ℚ) (h : low ≠ high) :
    (∃ f, interpolator low high high low false = .ok f ∧
        f v = (low + high) - v) ∧
      ∀ sl sh dl dh : ℚ, ∀ lock : Bool, sl > sh →
        interpolator sl sh dl dh lock = interpolator sh sl dh dl lock := by
  constructor
  · unfold interpolator interpolatorSorted
    rcases lt_trichotomy low high with hlt | heq | hgt
    · rw [if_neg (not_lt.mpr hlt.le), if_neg h]
      exact ⟨_, rfl, inner_interpolator_mirror low high v h⟩
    · exact absurd heq h
    · rw [if_pos hgt, if_neg (Ne.symm h)]
      refine ⟨_, rfl, ?_⟩
      show inner_interpolator high low low high v = (low + high) - v
      rw [inner_interpolator_mirror high low v (Ne.symm h)]
      ring
  · intro sl sh dl dh lock hgt
    unfold interpolator
    rw [if_pos hgt, if_neg (not_lt.mpr hgt.le)]

/-- Witness for C6: at `low = 1`, `high = 2`, the mirrored interpolator
sends `0` to `3` (the concrete case checked in the repository's tests). -/
theorem interpolator_inverse_law_witness :
    (1 : ℚ) ≠ 2 ∧
      ((∃ f, interpolator 1 2 2 1 false = .ok f ∧ f 0 = (1 + 2) - 0) ∧
        ∀ sl sh dl dh : ℚ, ∀ lock : Bool, sl > sh →
          interpolator sl sh dl dh lock = interpolator sh sl dh dl lock) :=
  ⟨by norm_num, interpolator_inverse_law 1 2 0 (by norm_num)⟩

/-- C10: `quantise_to` also fails at construction when `source_low`
equals `source_high`, for every `max_level ≥ 1` and pads in `[0, 1]`,
with the range error raised by the internal interpolator. -/
theorem quantise_to_equal_range_error (s : ℚ) (ml : ℤ) (lp hp : ℚ)
    (hml : 1 ≤ ml) (hlp0 : 0 ≤ lp) (hlp1 : lp ≤ 1)
    (hhp0 : 0 ≤ hp) (hhp1 : hp ≤ 1) :
    quantise_to s s ml lp hp = .error (.invalidRange s) := by
  unfold quantise_to interpolator interpolatorSorted
  rw [if_neg (by push_neg; exact ⟨hlp1, hlp0⟩), if_neg (by push_neg; exact ⟨hhp1, hhp0⟩),
    if_neg (not_lt.mpr hml), if_neg (lt_irrefl s), if_pos rfl]

/-- Witness for C10: quantising with `source_low = source_high = 0`,
`max_level = 10` and zero pads fails with the range error. -/
theorem quantise_to_equal_range_error_witness :
    (1 : ℤ) ≤ 10 ∧ quantise_to 0 0 10 0 0 = .error (.invalidRange 0) :=
  ⟨by norm_num,
    quantise_to_equal_range_error 0 10 0 0 (by norm_num) (by norm_num)
      (by norm_num) (by norm_num) (by norm_num)⟩

/-- The interpolator factory fails exactly when the two source bounds are
equal. -/
lemma interpolator_error_iff (sl sh dl dh : ℚ) (lock : Bool) :
    (∃ e, interpolator sl sh dl dh lock = .error e) ↔ sl = sh := by
  unfold interpolator interpolatorSorted
  rcases lt_trichotomy sl sh with hlt | heq | hgt
  · rw [if_neg (not_lt.mpr hlt.le), if_neg (ne_of_lt hlt)]
    simp [ne_of_lt hlt]
  · subst heq
    rw [if_neg (lt_irrefl sl), if_pos rfl]
    simp
  · rw [if_pos hgt, if_neg (ne_of_lt hgt)]
    simp [ne_of_gt hgt]

/-- With equal source bounds the factory returns the range error. -/
lemma interpolator_eq_error_of_eq (sl sh dl dh : ℚ) (lock : Bool)
    (h : sl = sh) :
    interpolator sl sh dl dh lock = .error (.invalidRange sl) := by
  subst h
  unfold interpolator interpolatorSorted
  rw [if_neg (lt_irrefl sl), if_pos rfl]

/-- The only error the interpolator factory can produce is the range
error, and only for equal source bounds. -/
lemma interpolator_error_shape (sl sh dl dh : ℚ) (lock : Bool)
    (e : UtilError) (h : interpolator sl sh dl dh lock = .error e) :
    sl = sh ∧ e = .invalidRange sl := by
  unfold interpolator interpolatorSorted at h
  split at h
  · next hgt =>
    split at h
    · next heq => exact absurd heq (ne_of_lt hgt)
    · simp at h
  · split at h
    · next heq => exact ⟨heq, (Except.error.inj h).symm⟩
    · simp at h

/-- C5: errors occur only eagerly at construction: the interpolator
factory fails (with the range error) exactly when `source_low =
source_high`; the tuple interpolator inherits exactly that behaviour; and
the quantiser fails with a parameter error exactly when a pad is outside
`[0, 1]` or `max_level < 1`.  Totality of every successfully constructed
function is inherent in the embedding: each produced value is a total
function on `ℚ`. -/
theorem construction_errors_spec :
    (∀ sl sh dl dh : ℚ, ∀ lock : Bool,
        ((∃ e, interpolator sl sh dl dh lock = .error e) ↔ sl = sh) ∧
          (sl = sh → interpolator sl sh dl dh lock =
            .error (.invalidRange sl))) ∧
      (∀ sl sh dl dh : ℚ, ∀ lock : Bool,
        (∃ e, tuple_interpolator sl sh dl dh lock = .error e) ↔ sl = sh) ∧
      ∀ sl sh : ℚ, ∀ ml : ℤ, ∀ lp hp : ℚ,
        (∃ s, quantise_to sl sh ml lp hp = .error (.invalidParameter s)) ↔
          lp > 1 ∨ lp < 0 ∨ hp > 1 ∨ hp < 0 ∨ ml < 1 := by
  refine ⟨fun sl sh dl dh lock => ⟨interpolator_error_iff sl sh dl dh lock,
      interpolator_eq_error_of_eq sl sh dl dh lock⟩, ?_, ?_⟩
  · intro sl sh dl dh lock
    constructor
    · rintro ⟨e, he⟩
      unfold tuple_interpolator at he
      rcases hi : interpolator sl sh dl dh lock with e' | f <;> rw [hi] at he
      · exact (interpolator_error_iff sl sh dl dh lock).mp ⟨e', hi⟩
      · simp at he
    · intro heq
      refine ⟨.invalidRange sl, ?_⟩
      unfold tuple_interpolator
      rw [interpolator_eq_error_of_eq sl sh dl dh lock heq]
  · intro sl sh ml lp hp
    unfold quantise_to
    split_ifs with h1 h2 h3
    · exact iff_of_true ⟨_, rfl⟩ (by tauto)
    · exact iff_of_true ⟨_, rfl⟩ (by tauto)
    · exact iff_of_true ⟨_, rfl⟩ (by tauto)
    · refine iff_of_false ?_ (by tauto)
      rintro ⟨s, hs⟩
      rcases hi : interpolator sl sh lp ((ml : ℚ) + 1 - hp) true
          with e | f <;> rw [hi] at hs
      · obtain ⟨-, rfl⟩ := interpolator_error_shape _ _ _ _ _ _ hi
        simp at hs
      · simp at hs

/-- C2: every successfully constructed quantiser returns an integer in
`[0, max_level]`, and its evaluation is the floor of the internal locked
interpolation onto `[low_pad, max_level + 1 - high_pad]` clamped to at
most `max_level`. -/
theorem quantise_to_range_and_eval (sl sh : ℚ) (ml : ℤ) (lp hp : ℚ)
    (q : ℚ → ℤ) (h : quantise_to sl sh ml lp hp = .ok q) (v : ℚ) :
    (0 ≤ q v ∧ q v ≤ ml) ∧
      ∃ f, interpolator sl sh lp ((ml : ℚ) + 1 - hp) true = .ok f ∧
        q v = min ml ⌊f v⌋ := by
  unfold quantise_to at h
  split_ifs at h with h1 h2 h3
  push_neg at h1 h2 h3
  rcases hi : interpolator sl sh lp ((ml : ℚ) + 1 - hp) true
      with e | f <;> rw [hi] at h
  · simp at h
  · simp only [Except.ok.injEq] at h
    subst h
    refine ⟨⟨?_, min_le_left _ _⟩, f, rfl, rfl⟩
    have hml : (1 : ℚ) ≤ (ml : ℚ) := by exact_mod_cast h3
    have hmin : (0 : ℚ) ≤ min lp ((ml : ℚ) + 1 - hp) :=
      le_min h1.2 (by linarith [h2.1])
    have h0 : (0 : ℚ) ≤ f v :=
      le_trans hmin (interpolator_locked_bounds _ _ _ _ _ hi v).1
    exact le_min (by omega) (Int.floor_nonneg.mpr h0)

/-- Witness for C2: the quantiser `quantise_to 0 1 10` evaluated at
`51/100` stays in `[0, 10]` and equals the clamped floor of the internal
locked interpolation. -/
theorem quantise_to_range_and_eval_witness :
    ((0 : ℤ) ≤ min 10 ⌊inner_locked_interpolator 0 1 0
          (((10 : ℤ) : ℚ) + 1 - 0) (51/100)⌋ ∧
        min 10 ⌊inner_locked_interpolator 0 1 0
          (((10 : ℤ) : ℚ) + 1 - 0) (51/100)⌋ ≤ 10) ∧
      ∃ f, interpolator 0 1 0 (((10 : ℤ) : ℚ) + 1 - 0) true = .ok f ∧
        min 10 ⌊inner_locked_interpolator 0 1 0
          (((10 : ℤ) : ℚ) + 1 - 0) (51/100)⌋ = min 10 ⌊f (51/100)⌋ :=
  quantise_to_range_and_eval 0 1 10 0 0
    (fun value => min 10 ⌊inner_locked_interpolator 0 1 0
      (((10 : ℤ) : ℚ) + 1 - 0) value⌋) rfl (51/100)

/-- C3: `should_run` returns true and sets `last_time` to the current
time exactly when `last_time` is unset or the elapsed time strictly
exceeds `interval`; otherwise it returns false and leaves the whole state
unchanged; and boolean coercion is the same operation, side effect
included. -/
theorem should_run_spec (ic : IntervalCheck) (now : ℚ) :
    (ic.should_run now = (true, { ic with last_time := some now }) ↔
        ic.last_time = none ∨
          ∃ lt, ic.last_time = some lt ∧ now - lt > ic.interval) ∧
      (ic.should_run now = (false, ic) ↔
        ∃ lt, ic.last_time = some lt ∧ ¬ now - lt > ic.interval) ∧
      ic.boolCoerce now = ic.should_run now := by
  have hrun : ∀ lt, ic.last_time = some lt →
      ic.should_run now = if now - lt > ic.interval
        then (true, { ic with last_time := some now }) else (false, ic) := by
    intro lt h
    simp [IntervalCheck.should_run, h]
  refine ⟨?_, ?_, rfl⟩
  · rcases hlt : ic.last_time with _ | lt
    · simp [IntervalCheck.should_run, hlt]
    · rw [hrun lt hlt]
      by_cases h : now - lt > ic.interval
      · rw [if_pos h]
        exact iff_of_true rfl (Or.inr ⟨lt, rfl, h⟩)
      · rw [if_neg h]
        constructor
        · intro hfalse
          exact absurd hfalse (by simp [Prod.ext_iff])
        · rintro (hnone | ⟨lt', hlt', hgt⟩)
          · exact Option.noConfusion hnone
          · obtain rfl := Option.some.inj hlt'
            exact absurd hgt h
  · rcases hlt : ic.last_time with _ | lt
    · rw [show ic.should_run now = (true, { ic with last_time := some now })
        from by simp [IntervalCheck.should_run, hlt]]
      constructor
      · intro hfalse
        exact absurd hfalse (by simp [Prod.ext_iff])
      · rintro ⟨lt', hlt', -⟩
        exact Option.noConfusion hlt'
    · rw [hrun lt hlt]
      by_cases h : now - lt > ic.interval
      · rw [if_pos h]
        constructor
        · intro hfalse
          exact absurd hfalse (by simp [Prod.ext_iff])
        · rintro ⟨lt', hlt', hng⟩
          obtain rfl := Option.some.inj hlt'
          exact absurd h hng
      · rw [if_neg h]
        exact iff_of_true rfl ⟨lt, rfl, h⟩

/-- Witness for C3: an unfired gate fires on the first call and then
refuses an immediate second call at the same timestamp. -/
theorem should_run_spec_witness :
    ((IntervalCheck.init 1).should_run 0 =
        (true, { interval := 1, last_time := some 0 }) ↔
        (IntervalCheck.init 1).last_time = none ∨
          ∃ lt, (IntervalCheck.init 1).last_time = some lt ∧
            (0 : ℚ) - lt > (IntervalCheck.init 1).interval) ∧
      ((IntervalCheck.init 1).should_run 0 = (false, IntervalCheck.init 1) ↔
        ∃ lt, (IntervalCheck.init 1).last_time = some lt ∧
          ¬ (0 : ℚ) - lt > (IntervalCheck.init 1).interval) ∧
      (IntervalCheck.init 1).boolCoerce 0 = (IntervalCheck.init 1).should_run 0 :=
  should_run_spec (IntervalCheck.init 1) 0

/-- C4: `sleep` with `last_time` unset records the current time and does
not sleep; with the interval already elapsed it returns immediately with
no change; otherwise it sleeps for the remaining time and sets
`last_time` to the computed target wake time, which equals the old
`last_time` plus `interval`. -/
theorem sleep_spec (ic : IntervalCheck) (now : ℚ) :
    (ic.last_time = none →
        ic.sleep now = (0, { ic with last_time := some now })) ∧
      (∀ lt, ic.last_time = some lt → now - lt > ic.interval →
        ic.sleep now = (0, ic)) ∧
      ∀ lt, ic.last_time = some lt → ¬ now - lt > ic.interval →
        ic.sleep now =
            (ic.interval - (now - lt),
              { ic with last_time := some (now + (ic.interval - (now - lt))) }) ∧
          now + (ic.interval - (now - lt)) = lt + ic.interval := by
  refine ⟨fun h => by simp [IntervalCheck.sleep, h],
    fun lt h hgt => by simp [IntervalCheck.sleep, h, hgt],
    fun lt h hle => ⟨by simp [IntervalCheck.sleep, h, hle], by ring⟩⟩

/-- Witness for C4: a gate with `interval = 1` last fired at time `0`,
asked to sleep at time `1/2`, sleeps for the remaining `1/2` and wakes at
the target time `0 + 1`. -/
theorem sleep_spec_witness :
    (⟨1, some 0⟩ : IntervalCheck).sleep (1/2) =
        ((1 : ℚ) - (1/2 - 0),
          { interval := 1, last_time := some (1/2 + (1 - (1/2 - 0))) }) ∧
      (1/2 : ℚ) + (1 - (1/2 - 0)) = 0 + 1 :=
  (sleep_spec ⟨1, some 0⟩ (1/2)).2.2 0 rfl (by norm_num)

/-- C8: scope entry is exactly a `sleep()` call, and scope exit sets
`last_time` to the current time while keeping the interval, identically
whether or not the enclosed block raised an exception. -/
theorem with_protocol_spec (ic : IntervalCheck) (now exitTime : ℚ)
    (raised : Bool) :
    ic.enter now = ic.sleep now ∧
      ic.exitScope exitTime raised = { ic with last_time := some exitTime } ∧
      ic.exitScope exitTime true = ic.exitScope exitTime false :=
  ⟨rfl, rfl, rfl⟩

/-- C9: when the interval has already elapsed, `sleep` returns with the
state completely unchanged — unlike `should_run`, which re-arms the gate
by updating `last_time` — so a later `sleep` call measures from the
original `last_time`. -/
theorem sleep_expired_no_rearm (ic : IntervalCheck) (now lt : ℚ)
    (hlt : ic.last_time = some lt) (h : now - lt > ic.interval) :
    ic.sleep now = (0, ic) ∧
      (ic.should_run now).2 = { ic with last_time := some now } ∧
      ∀ fut : ℚ, ((ic.sleep now).2).sleep fut = ic.sleep fut := by
  have hs : ic.sleep now = (0, ic) := by simp [IntervalCheck.sleep, hlt, h]
  exact ⟨hs, by simp [IntervalCheck.should_run, hlt, h], fun fut => by rw [hs]⟩

/-- Witness for C9: a gate with `interval = 1` last fired at time `0`,
polled at time `3`, is left untouched by `sleep` while `should_run`
would re-arm it. -/
theorem sleep_expired_no_rearm_witness :
    (⟨1, some 0⟩ : IntervalCheck).sleep 3 = (0, ⟨1, some 0⟩) ∧
      ((⟨1, some 0⟩ : IntervalCheck).should_run 3).2 =
        { interval := 1, last_time := some 3 } ∧
      ∀ fut : ℚ, (((⟨1, some 0⟩ : IntervalCheck).sleep 3).2).sleep fut =
        (⟨1, some 0⟩ : IntervalCheck).sleep fut :=
  sleep_expired_no_rearm ⟨1, some 0⟩ 3 0 rfl (by norm_num)

/-- Evaluation step for concrete quantiser outputs: compute the locked
interpolation, bracket it to determine the floor, then resolve the clamp. -/
lemma quantise_eval_step (dl dh v x : ℚ) (ml n : ℤ)
    (hx : inner_locked_interpolator 0 1 dl dh v = x)
    (hlo : (n : ℚ) ≤ x) (hhi : x < n + 1) (hmin : min ml n = n) :
    min ml ⌊inner_locked_interpolator 0 1 dl dh v⌋ = n := by
  rw [hx, Int.floor_eq_iff.mpr ⟨hlo, by exact_mod_cast hhi⟩, hmin]

/-- C7: the quantiser `quantise_to 0 1 10` sends `0.51` to `5`, `0.08` to
`0` and `0.10` to `1`; with both pads at `0.5` it sends `0` to `0`,
`0.05` to `1` and `0.95` to `10`. -/
theorem quantise_examples :
    (∃ q, quantise_to 0 1 10 0 0 = .ok q ∧
        q (51/100) = 5 ∧ q (8/100) = 0 ∧ q (1/10) = 1) ∧
      ∃ q, quantise_to 0 1 10 (1/2) (1/2) = .ok q ∧
        q 0 = 0 ∧ q (1/20) = 1 ∧ q (19/20) = 10 := by
  constructor
  · refine ⟨_, rfl, ?_, ?_, ?_⟩
    · exact quantise_eval_step _ _ _ (561/100) _ 5
        (by norm_num [inner_locked_interpolator]) (by norm_num) (by norm_num)
        (by norm_num)
    · exact quantise_eval_step _ _ _ (22/25) _ 0
        (by norm_num [inner_locked_interpolator]) (by norm_num) (by norm_num)
        (by norm_num)
    · exact quantise_eval_step _ _ _ (11/10) _ 1
        (by norm_num [inner_locked_interpolator]) (by norm_num) (by norm_num)
        (by norm_num)
  · have hq : quantise_to 0 1 10 (1/2) (1/2) =
        .ok (fun value => min 10 ⌊inner_locked_interpolator 0 1 (1/2)
          (((10 : ℤ) : ℚ) + 1 - 1/2) value⌋) := by
      unfold quantise_to interpolator interpolatorSorted
      norm_num
    refine ⟨_, hq, ?_, ?_, ?_⟩
    · exact quantise_eval_step _ _ _ (1/2) _ 0
        (by norm_num [inner_locked_interpolator]) (by norm_num) (by norm_num)
        (by norm_num)
    · exact quantise_eval_step _ _ _ 1 _ 1
        (by norm_num [inner_locked_interpolator]) (by norm_num) (by norm_num)
        (by norm_num)
    · exact quantise_eval_step _ _ _ 10 _ 10
        (by norm_num [inner_locked_interpolator]) (by norm_num) (by norm_num)
        (by norm_num)

/-- Witness for C5: `interpolator 1 1` fails with the range error, and a
quantiser with `max_level = 0` fails with a parameter error. -/
theorem construction_errors_spec_witness :
    interpolator 1 1 0 1 false = .error (.invalidRange 1) ∧
      ∃ s, quantise_to 0 1 0 0 0 = .error (.invalidParameter s) :=
  ⟨(construction_errors_spec.1 1 1 0 1 false).2 rfl,
    (construction_errors_spec.2.2 0 1 0 0 0).mpr (by norm_num)⟩
